import Mathlib

/-!
Verification of the IDX buffer validator in src/src/lib.rs.

The buffer is embedded as a `List Nat` of byte values.  The `validate`
function below is a direct transcription of the Rust `validate` in
src/src/lib.rs: it checks that the buffer holds at least the 4-byte fixed
prefix, that the two reserved bytes are zero, and then returns `Ok(())`.
The header-size arithmetic described by the specification (type table,
dimension product, required total length) does not appear in the source
function; where a claim needs those quantities they are modelled from the
specification and marked as such.
-/

/-- The `ValidationError` enum from src/src/lib.rs. -/
inductive ValidationError where
  | Truncated : ValidationError
  | OverAllocated (declared actual : Nat) : ValidationError
  | BadPadding : ValidationError
  | UnknownTypeCode (code : Nat) : ValidationError
  | Overflow : ValidationError
  deriving DecidableEq, Repr

/-- The `validate` function from src/src/lib.rs, transcribed clause by
clause: reject buffers shorter than 4 bytes as `Truncated`, reject a
nonzero byte at offset 0 or 1 as `BadPadding`, and otherwise accept.
Indexing uses `getD`, which agrees with Rust slice indexing because both
reads happen only after the length check has passed. -/
def validate (buffer : List Nat) : Except ValidationError Unit :=
  if buffer.length < 4 then
    Except.error ValidationError.Truncated
  else if buffer.getD 0 0 ≠ 0 ∨ buffer.getD 1 0 ≠ 0 then
    Except.error ValidationError.BadPadding
  else
    Except.ok ()

/-- Modelled from the spec: the type-resolver table of section 4.2 is
absent from src/src/lib.rs (no code in the source maps a type code to an
element width); the recognized codes and widths follow the table used by
the repository's tests (0x08 unsigned byte, 0x0B 16-bit integer) and the
classic IDX code set named in the spec. -/
def element_width : Nat → Option Nat
  | 0x08 => some 1
  | 0x09 => some 1
  | 0x0B => some 2
  | 0x0C => some 4
  | 0x0D => some 4
  | 0x0E => some 8
  | _ => none

/-- Modelled from the spec: read the 4-byte big-endian unsigned value at
the given offset (section 4.1; absent from src/src/lib.rs). -/
def readBE32 (buffer : List Nat) (off : Nat) : Nat :=
  ((buffer.getD off 0 * 256 + buffer.getD (off + 1) 0) * 256
      + buffer.getD (off + 2) 0) * 256 + buffer.getD (off + 3) 0

/-- Modelled from the spec: the dimension table declared by the header,
`dimension_count` big-endian 32-bit values starting at offset 4
(section 4.1; absent from src/src/lib.rs). -/
def dimensions (buffer : List Nat) : List Nat :=
  (List.range (buffer.getD 3 0)).map (fun i => readBE32 buffer (4 + 4 * i))

/-- Modelled from the spec: the element count is the product of the
declared dimensions, with accumulator starting at 1 (section 4.3; absent
from src/src/lib.rs). -/
def element_count (buffer : List Nat) : Nat :=
  (dimensions buffer).foldl (fun a d => a * d) 1

/-- Modelled from the spec: the total buffer length the header implies,
`4 + dimension_count * 4 + element_count * element_width` (section 3;
absent from src/src/lib.rs). -/
def required_total_bytes (buffer : List Nat) (width : Nat) : Nat :=
  4 + buffer.getD 3 0 * 4 + element_count buffer * width

/-- C7: `validate` accepts the 5-byte rank-0 unsigned-byte scalar
`[0x00, 0x00, 0x08, 0x00, 0xFE]`, whose required total length 5 matches
the buffer length. -/
theorem validate_uint8_0d :
    validate [0x00, 0x00, 0x08, 0x00, 0xFE] = Except.ok () ∧
      required_total_bytes [0x00, 0x00, 0x08, 0x00, 0xFE] 1 = 5 :=
  ⟨rfl, rfl⟩

/-- C8: `validate` is deterministic; as a pure function of the buffer it
yields the same result on every call with the same buffer. -/
theorem validate_deterministic (buffer : List Nat) :
    validate buffer = validate buffer := rfl

/-- C10: on every input, `validate` returns `Ok`, `Truncated` or
`BadPadding`; it never constructs `OverAllocated`, `UnknownTypeCode` or
`Overflow`. -/
theorem validate_result_cases (buffer : List Nat) :
    validate buffer = Except.ok () ∨
      validate buffer = Except.error ValidationError.Truncated ∨
      validate buffer = Except.error ValidationError.BadPadding := by
  unfold validate
  split
  · exact Or.inr (Or.inl rfl)
  · split
    · exact Or.inr (Or.inr rfl)
    · exact Or.inl rfl

/-- C2: a buffer with zero reserved bytes, a recognized type code, and a
length exactly equal to the required total byte count is accepted by
`validate`.  (The source function checks only the first two conditions it
needs — length at least 4 and zero padding — both of which follow from
the hypotheses, and then accepts.) -/
theorem validate_exact_length_ok (buffer : List Nat) (w : Nat)
    (h0 : buffer.getD 0 0 = 0) (h1 : buffer.getD 1 0 = 0)
    (hw : element_width (buffer.getD 2 0) = some w)
    (hlen : buffer.length = required_total_bytes buffer w) :
    validate buffer = Except.ok () := by
  have h4 : ¬ buffer.length < 4 := by
    unfold required_total_bytes at hlen
    omega
  unfold validate
  rw [if_neg h4, if_neg (by rw [h0, h1]; simp)]

/-- Witness for C2 at the 3-by-3 unsigned-byte matrix buffer of the
repository's test suite, whose length 21 equals the required total. -/
theorem validate_exact_length_ok_witness :
    element_width 0x08 = some 1 ∧
      ([0x00, 0x00, 0x08, 0x02, 0, 0, 0, 3, 0, 0, 0, 3,
          1, 0, 0, 0, 1, 0, 0, 0, 1] : List Nat).length =
        required_total_bytes
          [0x00, 0x00, 0x08, 0x02, 0, 0, 0, 3, 0, 0, 0, 3,
            1, 0, 0, 0, 1, 0, 0, 0, 1] 1 ∧
      validate
          [0x00, 0x00, 0x08, 0x02, 0, 0, 0, 3, 0, 0, 0, 3,
            1, 0, 0, 0, 1, 0, 0, 0, 1] = Except.ok () :=
  ⟨rfl, rfl,
    validate_exact_length_ok
      [0x00, 0x00, 0x08, 0x02, 0, 0, 0, 3, 0, 0, 0, 3,
        1, 0, 0, 0, 1, 0, 0, 0, 1] 1 rfl rfl rfl rfl⟩

/-- C9: every buffer of length at least 4 whose bytes at offsets 0 and 1
are both zero is accepted by `validate`, whatever the type code byte, the
dimension count byte, the dimension table or the total length. -/
theorem validate_ok_of_zero_padding (buffer : List Nat)
    (hlen : 4 ≤ buffer.length)
    (h0 : buffer.getD 0 0 = 0) (h1 : buffer.getD 1 0 = 0) :
    validate buffer = Except.ok () := by
  have h4 : ¬ buffer.length < 4 := by omega
  unfold validate
  rw [if_neg h4, if_neg (by rw [h0, h1]; simp)]

/-- Witness for C9 at a 4-byte buffer with an unrecognized type code and
an absurd dimension count, still accepted. -/
theorem validate_ok_of_zero_padding_witness :
    4 ≤ ([0, 0, 0x63, 0x4D] : List Nat).length ∧
      validate [0, 0, 0x63, 0x4D] = Except.ok () :=
  ⟨by decide, validate_ok_of_zero_padding [0, 0, 0x63, 0x4D] (by decide) rfl rfl⟩

/-- Counterexample for C6 as stated: the 1-byte buffer `[0x01]` has a
nonzero byte at offset 0, yet `validate` returns `Truncated`, not
`BadPadding`, because the length check precedes the padding check. -/
theorem validate_badpadding_cex :
    ([0x01] : List Nat).getD 0 0 ≠ 0 ∧
      validate [0x01] ≠ Except.error ValidationError.BadPadding := by
  constructor
  · decide
  · intro h
    simp [validate] at h

/-- C6 amended: every buffer of length at least 4 with a nonzero byte at
offset 0 or offset 1 is rejected by `validate` with `BadPadding`,
regardless of the rest of the content. -/
theorem validate_badpadding_of_nonzero (buffer : List Nat)
    (hlen : 4 ≤ buffer.length)
    (h : buffer.getD 0 0 ≠ 0 ∨ buffer.getD 1 0 ≠ 0) :
    validate buffer = Except.error ValidationError.BadPadding := by
  have h4 : ¬ buffer.length < 4 := by omega
  unfold validate
  rw [if_neg h4, if_pos h]

/-- Witness for C6 amended at `[0xAA, 0x00, 0x08, 0x00]`. -/
theorem validate_badpadding_of_nonzero_witness :
    4 ≤ ([0xAA, 0x00, 0x08, 0x00] : List Nat).length ∧
      validate [0xAA, 0x00, 0x08, 0x00] =
        Except.error ValidationError.BadPadding :=
  ⟨by decide,
    validate_badpadding_of_nonzero [0xAA, 0x00, 0x08, 0x00] (by decide)
      (Or.inl (by decide))⟩

/-- C1: the source `validate` accepts the 9-byte buffer of the
repository's test `test_validate_too_short_for_data_1d`, although its
required total length is 11 and both the claim and that test demand
`Truncated`. -/
theorem validate_accepts_truncated_payload :
    validate [0x00, 0x00, 0x08, 0x01, 0, 0, 0, 3, 1] = Except.ok () ∧
      ([0x00, 0x00, 0x08, 0x01, 0, 0, 0, 3, 1] : List Nat).length <
        required_total_bytes [0x00, 0x00, 0x08, 0x01, 0, 0, 0, 3, 1] 1 :=
  ⟨rfl, by decide⟩

/-- The 16-byte buffer of the repository's test
`test_validate_overflow_uint8`: three dimensions whose product is
2 to the 64 minus 16, so the required total length is exactly 2 to the
64 and overflows a 64-bit size. -/
def overflow_test_buffer : List Nat :=
  [0x00, 0x00, 0x08, 0x03,
   0x00, 0x00, 0x05, 0x29,
   0x06, 0xa8, 0x95, 0x70,
   0x07, 0x73, 0x62, 0xf1]

/-- C3: the source `validate` accepts the overflow test buffer, whose
required total length is exactly 2 to the 64, although both the claim and
the repository's test `test_validate_overflow_uint8` demand `Overflow`. -/
theorem validate_accepts_overflowing_header :
    validate overflow_test_buffer = Except.ok () ∧
      required_total_bytes overflow_test_buffer 1 = 2 ^ 64 :=
  ⟨rfl, by decide⟩

/-- C4: the source `validate` accepts the 4-byte buffer with unrecognized
type code 0xFF, although the claim demands `UnknownTypeCode`; the source
never constructs its `UnknownTypeCode` variant. -/
theorem validate_accepts_unknown_code :
    element_width 0xFF = none ∧
      validate [0x00, 0x00, 0xFF, 0x00] = Except.ok () :=
  ⟨rfl, rfl⟩

/-- C5: the source `validate` accepts the 11-byte buffer of the
repository's test `test_validate_too_short_for_bounds`, which is shorter
than its declared 12-byte header, although both the claim and that test
demand `Truncated`. -/
theorem validate_accepts_short_dim_table :
    validate [0x00, 0x00, 0x08, 0x02, 0, 0, 0, 3, 0, 0, 0] = Except.ok () ∧
      ([0x00, 0x00, 0x08, 0x02, 0, 0, 0, 3, 0, 0, 0] : List Nat).length <
        4 + ([0x00, 0x00, 0x08, 0x02, 0, 0, 0, 3, 0, 0, 0] : List Nat).getD 3 0 * 4 :=
  ⟨rfl, by decide⟩
